import Mathlib

/-!
Shallow embedding of the connection/session core of the
postgres-mysql-mcp-server repository (src/index.js), together with
theorems checking the natural-language specification against it.

The embedding models:
  * JavaScript truthiness for the configuration fields that the code
    tests with `!x` and merges with `x || y` (empty strings, the number
    0 and `NaN` are falsy; `undefined` is modelled as `Option.none`);
  * `getConfigFromEnv` (src/index.js lines 38-95);
  * `connectDatabase` (lines 245-329), with the backend driver's
    connect/probe outcome supplied as an oracle parameter and the
    adapter interactions recorded as an explicit call trace;
  * `executeQuery` / `listTables` / `describeTable` /
    `disconnectDatabase` (lines 331-536) in the same style, with the
    driver's reply supplied as an oracle and the issued statement text
    and parameter list recorded in the trace.
-/

set_option autoImplicit false
set_option maxRecDepth 40000

namespace SQLMCP

/-- A JavaScript number as it occurs in this program (a port value):
`none` models `NaN`, `some n` a finite integer. -/
abbrev JSNum := Option Int

/-- A JavaScript scalar value as sent in query parameter lists and
returned inside rows. -/
inductive JSVal where
  | str (s : String)
  | num (n : JSNum)
  | boolean (b : Bool)
  | null
  | undef
deriving DecidableEq, Repr

/-- Truthiness of a possibly-undefined JavaScript string:
`undefined` and `""` are falsy. -/
def truthyS : Option String → Bool
  | none => false
  | some s => !(s == "")

/-- Truthiness of a possibly-undefined JavaScript number:
`undefined`, `NaN` and `0` are falsy. -/
def truthyN : Option JSNum → Bool
  | none => false
  | some none => false
  | some (some n) => !(n == 0)

/-- JavaScript `a || b` on possibly-undefined strings. -/
def orJS (a b : Option String) : Option String :=
  if truthyS a then a else b

/-- The environment variables read by `getConfigFromEnv`
(src/index.js lines 40-52 and 79, 92). `none` models an unset variable. -/
structure Env where
  DB_TYPE : Option String
  DATABASE_TYPE : Option String
  DB_HOST : Option String
  DB_PORT : Option String
  DB_DATABASE : Option String
  DB_USER : Option String
  DB_PASSWORD : Option String
  DB_SSL : Option String
  POSTGRES_HOST : Option String
  POSTGRES_PORT : Option String
  POSTGRES_DATABASE : Option String
  POSTGRES_USER : Option String
  POSTGRES_PASSWORD : Option String
  POSTGRES_SSL : Option String
  MYSQL_HOST : Option String
  MYSQL_PORT : Option String
  MYSQL_DATABASE : Option String
  MYSQL_USER : Option String
  MYSQL_PASSWORD : Option String
  MYSQL_SSL : Option String
deriving DecidableEq, Repr

/-- The environment with no variable set. -/
def emptyEnv : Env :=
  ⟨none, none, none, none, none, none, none, none, none, none,
   none, none, none, none, none, none, none, none, none, none⟩

/-- `process.env.DB_HOST || process.env.POSTGRES_HOST` (line 40). -/
def pgHostOf (e : Env) : Option String := orJS e.DB_HOST e.POSTGRES_HOST

/-- `process.env.DB_PORT || process.env.POSTGRES_PORT` (line 41). -/
def pgPortOf (e : Env) : Option String := orJS e.DB_PORT e.POSTGRES_PORT

/-- `process.env.DB_DATABASE || process.env.POSTGRES_DATABASE` (line 42). -/
def pgDatabaseOf (e : Env) : Option String := orJS e.DB_DATABASE e.POSTGRES_DATABASE

/-- `process.env.DB_USER || process.env.POSTGRES_USER` (line 43). -/
def pgUserOf (e : Env) : Option String := orJS e.DB_USER e.POSTGRES_USER

/-- `process.env.DB_PASSWORD || process.env.POSTGRES_PASSWORD` (line 44). -/
def pgPasswordOf (e : Env) : Option String := orJS e.DB_PASSWORD e.POSTGRES_PASSWORD

/-- `process.env.DB_TYPE || process.env.DATABASE_TYPE` (line 45). -/
def dbTypeOf (e : Env) : Option String := orJS e.DB_TYPE e.DATABASE_TYPE

/-- The whitespace characters `parseInt` skips. -/
def isSpaceCh (ch : Char) : Bool :=
  ch == ' ' || ch == '\t' || ch == '\n' || ch == '\r'

/-- Drop leading whitespace of a character list. -/
def dropLeadSpace : List Char → List Char
  | [] => []
  | c :: cs => if isSpaceCh c then dropLeadSpace cs else c :: cs

/-- Trim whitespace at both ends of a character list. -/
def trimChars (l : List Char) : List Char :=
  (dropLeadSpace ((dropLeadSpace l).reverse)).reverse

/-- Leading decimal digits of a character list. -/
def takeDigits : List Char → List Char
  | [] => []
  | c :: cs => if c.isDigit then c :: takeDigits cs else []

/-- Value of a decimal digit list. -/
def digitsToNat (ds : List Char) : Nat :=
  ds.foldl (fun a c => a * 10 + (c.toNat - 48)) 0

/-- JavaScript `parseInt(s, 10)`: trims whitespace, accepts an optional
sign, parses the leading digit run; `NaN` (= `none`) when no digits. -/
def parseIntJS (s : String) : JSNum :=
  match trimChars s.data with
  | '-' :: rest =>
      let ds := takeDigits rest
      if ds.isEmpty then none else some (-(digitsToNat ds : Int))
  | '+' :: rest =>
      let ds := takeDigits rest
      if ds.isEmpty then none else some ((digitsToNat ds : Int))
  | t =>
      let ds := takeDigits t
      if ds.isEmpty then none else some ((digitsToNat ds : Int))

/-- A fully resolved connection configuration (the shape of the objects
returned by `getConfigFromEnv` and of `finalConfig` in `connectDatabase`).
The `type` field is kept as the raw string the code stores. -/
structure Config where
  type : String
  host : String
  port : JSNum
  database : String
  user : String
  password : String
  ssl : Bool
deriving DecidableEq, Repr

/-- ASCII lower-casing of one character (the case `toLowerCase`
performs on the values this program compares). -/
def toLowerCh (ch : Char) : Char :=
  if 65 ≤ ch.toNat ∧ ch.toNat ≤ 90 then Char.ofNat (ch.toNat + 32) else ch

/-- ASCII `toLowerCase` of a string. -/
def strToLower (s : String) : String := ⟨s.data.map toLowerCh⟩

/-- The backend-type determination of `getConfigFromEnv`
(src/index.js lines 54-62): a truthy `DB_TYPE`/`DATABASE_TYPE` decides
(lower-cased, anything other than `mysql` meaning `postgresql`);
otherwise a truthy `MYSQL_HOST` or `MYSQL_DATABASE` means `mysql`;
otherwise a truthy generic/PostgreSQL host or database means
`postgresql`; otherwise no type. -/
def envDeterminedType (e : Env) : Option String :=
  if truthyS (dbTypeOf e) then
    some (if strToLower ((dbTypeOf e).getD "") == "mysql" then "mysql" else "postgresql")
  else if truthyS e.MYSQL_HOST || truthyS e.MYSQL_DATABASE then
    some "mysql"
  else if truthyS (pgHostOf e) || truthyS (pgDatabaseOf e) then
    some "postgresql"
  else
    none

/-- `getConfigFromEnv` (src/index.js lines 38-95): determine the type,
then require every connection field of that type's namespace to be
truthy, returning `none` (the code's `null`) otherwise. -/
def getConfigFromEnv (e : Env) : Option Config :=
  match envDeterminedType e with
  | none => none
  | some t =>
    if t == "postgresql" then
      if truthyS (pgHostOf e) && truthyS (pgPortOf e) && truthyS (pgDatabaseOf e)
          && truthyS (pgUserOf e) && truthyS (pgPasswordOf e) then
        some { type := "postgresql"
               host := (pgHostOf e).getD ""
               port := parseIntJS ((pgPortOf e).getD "")
               database := (pgDatabaseOf e).getD ""
               user := (pgUserOf e).getD ""
               password := (pgPasswordOf e).getD ""
               ssl := (e.DB_SSL == some "true") || (e.POSTGRES_SSL == some "true") }
      else none
    else
      if truthyS e.MYSQL_HOST && truthyS e.MYSQL_PORT && truthyS e.MYSQL_DATABASE
          && truthyS e.MYSQL_USER && truthyS e.MYSQL_PASSWORD then
        some { type := "mysql"
               host := e.MYSQL_HOST.getD ""
               port := parseIntJS (e.MYSQL_PORT.getD "")
               database := e.MYSQL_DATABASE.getD ""
               user := e.MYSQL_USER.getD ""
               password := e.MYSQL_PASSWORD.getD ""
               ssl := (e.DB_SSL == some "true") || (e.MYSQL_SSL == some "true") }
      else none

/-- The caller-supplied (possibly partial) argument object of the
`connect_database` tool. `none` models an absent property. -/
structure PartialConfig where
  type : Option String
  host : Option String
  port : Option JSNum
  database : Option String
  user : Option String
  password : Option String
  ssl : Option Bool
deriving DecidableEq, Repr

/-- The `connect_database` argument object with no property set. -/
def emptyPartial : PartialConfig := ⟨none, none, none, none, none, none, none⟩

/-- The completeness test of src/index.js line 249:
`!config.type || !config.host || !config.port || !config.database ||
!config.user || !config.password` (JavaScript truthiness, so an empty
string or port 0 counts as missing). -/
def explicitIncomplete (c : PartialConfig) : Bool :=
  !truthyS c.type || !truthyS c.host || !truthyN c.port
    || !truthyS c.database || !truthyS c.user || !truthyS c.password

/-- The merge of src/index.js lines 261-269: each field is
`config.f || envConfig.f`, except `ssl`, which is
`config.ssl !== undefined ? config.ssl : envConfig.ssl`. -/
def mergeConfig (c : PartialConfig) (ec : Config) : Config :=
  { type := if truthyS c.type then c.type.getD "" else ec.type
    host := if truthyS c.host then c.host.getD "" else ec.host
    port := if truthyN c.port then c.port.getD none else ec.port
    database := if truthyS c.database then c.database.getD "" else ec.database
    user := if truthyS c.user then c.user.getD "" else ec.user
    password := if truthyS c.password then c.password.getD "" else ec.password
    ssl := match c.ssl with
           | some b => b
           | none => ec.ssl }

/-- The `finalConfig = config` branch of src/index.js line 271,
reached only when every required field of `c` is truthy. An absent
`ssl` becomes `false`, matching how the code later consumes the
(possibly undefined, hence falsy) `finalConfig.ssl`. -/
def explicitToConfig (c : PartialConfig) : Config :=
  { type := c.type.getD ""
    host := c.host.getD ""
    port := c.port.getD none
    database := c.database.getD ""
    user := c.user.getD ""
    password := c.password.getD ""
    ssl := c.ssl.getD false }

/-- The error message thrown at src/index.js lines 253-257. -/
def cfgIncompleteMsg : String :=
  "Incomplete database configuration. Provide all parameters or set environment variables:\nFor PostgreSQL: DB_TYPE=postgresql, DB_HOST, DB_PORT, DB_DATABASE, DB_USER, DB_PASSWORD\nFor MySQL: DB_TYPE=mysql, MYSQL_HOST, MYSQL_PORT, MYSQL_DATABASE, MYSQL_USER, MYSQL_PASSWORD"

/-- Configuration resolution as performed at the top of `connectDatabase`
(src/index.js lines 245-272): if the explicit config is incomplete,
consult the environment and fail with the incompleteness message when it
yields nothing, otherwise merge; a complete explicit config is used as is. -/
def resolveConfig (env : Env) (c : PartialConfig) : Except String Config :=
  if explicitIncomplete c then
    match getConfigFromEnv env with
    | none => Except.error cfgIncompleteMsg
    | some ec => Except.ok (mergeConfig c ec)
  else
    Except.ok (explicitToConfig c)

/-- The `pg` pool object constructed at src/index.js lines 280-288.
`sslFlag` records whether the ssl option was the
rejectUnauthorized-false object (config ssl truthy) or `false`. -/
structure PgPool where
  host : String
  port : JSNum
  database : String
  user : String
  password : String
  sslFlag : Bool
  max : Nat
deriving DecidableEq, Repr

/-- The `mysql2` pool object constructed at src/index.js lines 304-313.
`sslFlag` records whether the ssl option was `\x7b\x7d` (config ssl truthy)
or `undefined`. -/
structure MyPool where
  host : String
  port : JSNum
  database : String
  user : String
  password : String
  sslFlag : Bool
  waitForConnections : Bool
  connectionLimit : Nat
deriving DecidableEq, Repr

/-- `new Pool(\x7b...\x7d)` for a resolved config (src/index.js lines 280-288). -/
def mkPgPool (f : Config) : PgPool :=
  ⟨f.host, f.port, f.database, f.user, f.password, f.ssl, 10⟩

/-- `mysql.createPool(\x7b...\x7d)` for a resolved config (lines 304-313). -/
def mkMyPool (f : Config) : MyPool :=
  ⟨f.host, f.port, f.database, f.user, f.password, f.ssl, true, 10⟩

/-- The mutable fields of `SQLMCPServer` that make up the session
(src/index.js lines 29-31). -/
structure SessionState where
  postgresPool : Option PgPool
  mysqlConnection : Option MyPool
  currentConfig : Option Config
deriving DecidableEq, Repr

/-- The state right after the constructor: everything `null`. -/
def initialState : SessionState := ⟨none, none, none⟩

/-- One interaction with a backend driver, recorded in order. A query
call carries the statement text and the parameter argument exactly as
passed to the driver (`none` = the params argument was omitted /
`undefined`). -/
inductive AdapterCall where
  | pgEnd (p : PgPool)
  | myEnd (p : MyPool)
  | pgProbe (p : PgPool)
  | myProbe (p : MyPool)
  | pgQuery (p : PgPool) (sql : String) (params : Option (List JSVal))
  | myQuery (p : MyPool) (sql : String) (params : Option (List JSVal))
deriving DecidableEq, Repr

/-- A row as a JavaScript object: ordered name/value pairs. -/
abbrev Row := List (String × JSVal)

/-- The raw result `pg` hands back from `pool.query`. -/
structure PgDriverResult where
  rows : List Row
  rowCount : Int
  fields : List (String × Nat)
deriving DecidableEq, Repr

/-- The first component of the `[rows, fields]` pair `mysql2` hands
back: an array of row objects for a read, or a ResultSetHeader
(carrying `affectedRows`) for a write statement. -/
inductive MyRows where
  | rowList (rs : List Row)
  | header (affectedRows : Nat)
deriving DecidableEq, Repr

/-- Outcome of a PostgreSQL driver call, supplied as an oracle. -/
inductive PgDriverOutcome where
  | ok (r : PgDriverResult)
  | err (m : String)
deriving DecidableEq, Repr

/-- Outcome of a MySQL driver call, supplied as an oracle:
on success the `[rows, fields]` pair (`fields` is `undefined` for
writes, modelled as `none`). -/
inductive MyDriverOutcome where
  | ok (rows : MyRows) (fields : Option (List (String × Nat)))
  | err (m : String)
deriving DecidableEq, Repr

/-- A normalized field summary: the column name with the opaque
backend type tag (`dataTypeID` for PostgreSQL, `type` for MySQL). -/
structure NormField where
  name : String
  tag : Nat
deriving DecidableEq, Repr

/-- The normalized PostgreSQL query result serialized at
src/index.js lines 346-357. -/
structure PgQueryResultN where
  rows : List Row
  rowCount : Int
  fields : List NormField
deriving DecidableEq, Repr

/-- The normalized MySQL query result serialized at
src/index.js lines 371-381 (`rows` is passed through unchanged, so a
write's ResultSetHeader lands in `rows` as is). -/
structure MyQueryResultN where
  rows : MyRows
  rowCount : Int
  fields : List NormField
deriving DecidableEq, Repr

/-- PostgreSQL result normalization (lines 346-357): rows and
`rowCount` are passed through from the driver, fields summarized to
name/dataTypeID. -/
def normalizePg (r : PgDriverResult) : PgQueryResultN :=
  { rows := r.rows
    rowCount := r.rowCount
    fields := r.fields.map fun f => ⟨f.1, f.2⟩ }

/-- MySQL result normalization (lines 371-381): `rowCount` is
`Array.isArray(rows) ? rows.length : 0`, fields are
`fields?.map(...) || []`. -/
def normalizeMy (rows : MyRows) (fields : Option (List (String × Nat))) : MyQueryResultN :=
  { rows := rows
    rowCount := match rows with
                | .rowList rs => (rs.length : Int)
                | .header _ => 0
    fields := match fields with
              | some l => l.map fun f => ⟨f.1, f.2⟩
              | none => [] }

/-- The structured payload of a successful tool response (the object
the code serializes with `JSON.stringify`, kept structured here). -/
inductive ToolOutput where
  | message (s : String)
  | pgResult (r : PgQueryResultN)
  | myResult (r : MyQueryResultN)
  | tableList (ts : List JSVal)
  | pgColumns (table : String) (columns : List Row)
  | myColumns (table : String) (columns : MyRows)
deriving DecidableEq, Repr

instance {ε α : Type} [DecidableEq ε] [DecidableEq α] : DecidableEq (Except ε α) := fun x y =>
  match x, y with
  | .error a, .error b =>
    if h : a = b then isTrue (by rw [h]) else isFalse (by intro hc; cases hc; exact h rfl)
  | .error _, .ok _ => isFalse (by intro hc; cases hc)
  | .ok _, .error _ => isFalse (by intro hc; cases hc)
  | .ok a, .ok b =>
    if h : a = b then isTrue (by rw [h]) else isFalse (by intro hc; cases hc; exact h rfl)

/-- Result of running one tool handler: the session state afterwards,
the ordered adapter-call trace, and either a thrown error message or
the structured response. -/
structure StepResult where
  state : SessionState
  calls : List AdapterCall
  result : Except String ToolOutput
deriving DecidableEq, Repr

/-- The error message thrown by the not-connected precondition checks
(src/index.js lines 333, 393, 453). -/
def notConnectedMsg : String :=
  "Not connected to any database. Call connect_database first."

/-- `disconnectDatabase` (src/index.js lines 515-536): end whichever
pools are present, null all three fields, report success. -/
def disconnectDatabase (st : SessionState) : StepResult :=
  let pgCalls := match st.postgresPool with
                 | some p => [AdapterCall.pgEnd p]
                 | none => []
  let myCalls := match st.mysqlConnection with
                 | some p => [AdapterCall.myEnd p]
                 | none => []
  { state := initialState
    calls := pgCalls ++ myCalls
    result := Except.ok (ToolOutput.message "Disconnected from database") }

/-- `${n}` string interpolation of a JavaScript number. -/
def jsNumToString : JSNum → String
  | none => "NaN"
  | some n => toString n

/-- `connectDatabase` (src/index.js lines 245-329). The driver's
connect-probe outcome is the oracle `probe`. Faithful to the statement
order of the source: on successful resolution the existing connections
are closed first, then `currentConfig` is assigned, then the pool field
is assigned, then the probe runs — so a failing probe leaves the new
config and pool in place. -/
def connectDatabase (env : Env) (c : PartialConfig) (st : SessionState)
    (probe : Except String Unit) : StepResult :=
  match resolveConfig env c with
  | Except.error m => { state := st, calls := [], result := Except.error m }
  | Except.ok f =>
    let d := disconnectDatabase st
    let st1 : SessionState := { d.state with currentConfig := some f }
    if f.type == "postgresql" then
      let p := mkPgPool f
      let st2 : SessionState := { st1 with postgresPool := some p }
      { state := st2
        calls := d.calls ++ [AdapterCall.pgProbe p]
        result := match probe with
                  | Except.ok _ => Except.ok (ToolOutput.message
                      ("Successfully connected to PostgreSQL database: "
                        ++ f.database ++ "@" ++ f.host ++ ":" ++ jsNumToString f.port))
                  | Except.error m => Except.error m }
    else if f.type == "mysql" then
      let p := mkMyPool f
      let st2 : SessionState := { st1 with mysqlConnection := some p }
      { state := st2
        calls := d.calls ++ [AdapterCall.myProbe p]
        result := match probe with
                  | Except.ok _ => Except.ok (ToolOutput.message
                      ("Successfully connected to MySQL database: "
                        ++ f.database ++ "@" ++ f.host ++ ":" ++ jsNumToString f.port))
                  | Except.error m => Except.error m }
    else
      { state := st1
        calls := d.calls
        result := Except.error ("Unsupported database type: " ++ f.type) }

/-- `executeQuery` (src/index.js lines 331-389). The driver reply is
the oracle (`pgOut` is consulted on the PostgreSQL path, `myOut` on the
MySQL path). The PostgreSQL call forwards `params` as given (possibly
`undefined`); the MySQL call passes `params || []`. -/
def executeQuery (st : SessionState) (q : String) (params : Option (List JSVal))
    (pgOut : PgDriverOutcome) (myOut : MyDriverOutcome) : StepResult :=
  match st.currentConfig with
  | none => { state := st, calls := [], result := Except.error notConnectedMsg }
  | some cfg =>
    if cfg.type == "postgresql" then
      match st.postgresPool with
      | none => { state := st, calls := [],
                  result := Except.error "PostgreSQL connection not initialized" }
      | some p =>
        { state := st
          calls := [AdapterCall.pgQuery p q params]
          result := match pgOut with
                    | .ok r => Except.ok (ToolOutput.pgResult (normalizePg r))
                    | .err m => Except.error m }
    else if cfg.type == "mysql" then
      match st.mysqlConnection with
      | none => { state := st, calls := [],
                  result := Except.error "MySQL connection not initialized" }
      | some p =>
        { state := st
          calls := [AdapterCall.myQuery p q (some (params.getD []))]
          result := match myOut with
                    | .ok rows fields => Except.ok (ToolOutput.myResult (normalizeMy rows fields))
                    | .err m => Except.error m }
    else
      { state := st, calls := [],
        result := Except.error ("Unsupported database type: " ++ cfg.type) }

/-- A single-quote character as a string, for SQL literals inside the
fixed statement texts. -/
def sq : String := String.singleton (Char.ofNat 39)

/-- The fixed table-listing statement of src/index.js lines 401-406
(a template literal; whitespace kept as in the source). -/
def pgListTablesQuery : String :=
  "\n        SELECT table_name \n        FROM information_schema.tables \n        WHERE table_schema = "
    ++ sq ++ "public" ++ sq
    ++ " \n        ORDER BY table_name;\n      "

/-- `listTables` (src/index.js lines 391-449). PostgreSQL runs the
fixed catalog query with no params argument and projects `table_name`;
MySQL interpolates the connected database name into a SHOW TABLES
statement and unwraps the `Tables_in_<db>` column. -/
def listTables (st : SessionState)
    (pgOut : PgDriverOutcome) (myOut : MyDriverOutcome) : StepResult :=
  match st.currentConfig with
  | none => { state := st, calls := [], result := Except.error notConnectedMsg }
  | some cfg =>
    if cfg.type == "postgresql" then
      match st.postgresPool with
      | none => { state := st, calls := [],
                  result := Except.error "PostgreSQL connection not initialized" }
      | some p =>
        { state := st
          calls := [AdapterCall.pgQuery p pgListTablesQuery none]
          result := match pgOut with
                    | .ok r => Except.ok (ToolOutput.tableList
                        (r.rows.map fun row => ((row.lookup "table_name").getD JSVal.undef)))
                    | .err m => Except.error m }
    else if cfg.type == "mysql" then
      match st.mysqlConnection with
      | none => { state := st, calls := [],
                  result := Except.error "MySQL connection not initialized" }
      | some p =>
        { state := st
          calls := [AdapterCall.myQuery p ("SHOW TABLES FROM " ++ cfg.database) none]
          result := match myOut with
                    | .ok (MyRows.rowList rs) _ => Except.ok (ToolOutput.tableList
                        (rs.map fun row =>
                          ((row.lookup ("Tables_in_" ++ cfg.database)).getD JSVal.undef)))
                    | .ok (MyRows.header _) _ =>
                        Except.error "rows.map is not a function"
                    | .err m => Except.error m }
    else
      { state := st, calls := [],
        result := Except.error ("Unsupported database type: " ++ cfg.type) }

/-- The fixed column-description statement of src/index.js lines
461-470; the table name is supplied through the bound parameter `$1`,
so the text is independent of the call's table name. -/
def pgDescribeQuery : String :=
  "\n        SELECT \n          column_name,\n          data_type,\n          is_nullable,\n          column_default\n        FROM information_schema.columns\n        WHERE table_schema = "
    ++ sq ++ "public" ++ sq
    ++ " AND table_name = $1\n        ORDER BY ordinal_position;\n      "

/-- `describeTable` (src/index.js lines 451-513). PostgreSQL runs the
fixed catalog query with `[tableName]` as the bound-parameter list;
MySQL interpolates the table name into a DESCRIBE statement with no
params argument and returns the driver rows unmodified. -/
def describeTable (st : SessionState) (tableName : String)
    (pgOut : PgDriverOutcome) (myOut : MyDriverOutcome) : StepResult :=
  match st.currentConfig with
  | none => { state := st, calls := [], result := Except.error notConnectedMsg }
  | some cfg =>
    if cfg.type == "postgresql" then
      match st.postgresPool with
      | none => { state := st, calls := [],
                  result := Except.error "PostgreSQL connection not initialized" }
      | some p =>
        { state := st
          calls := [AdapterCall.pgQuery p pgDescribeQuery (some [JSVal.str tableName])]
          result := match pgOut with
                    | .ok r => Except.ok (ToolOutput.pgColumns tableName r.rows)
                    | .err m => Except.error m }
    else if cfg.type == "mysql" then
      match st.mysqlConnection with
      | none => { state := st, calls := [],
                  result := Except.error "MySQL connection not initialized" }
      | some p =>
        { state := st
          calls := [AdapterCall.myQuery p ("DESCRIBE " ++ tableName) none]
          result := match myOut with
                    | .ok rows _ => Except.ok (ToolOutput.myColumns tableName rows)
                    | .err m => Except.error m }
    else
      { state := st, calls := [],
        result := Except.error ("Unsupported database type: " ++ cfg.type) }

/-! Presence of required configuration fields per source, and small
string/boolean helpers used by the theorems. -/

/-- The six required configuration fields. -/
inductive ReqField where
  | dbtype
  | host
  | port
  | database
  | user
  | password
deriving DecidableEq, Repr

/-- A required field counts as supplied by the explicit config exactly
when the code's truthiness test at src/index.js line 249 accepts it. -/
def explicitHasField (c : PartialConfig) : ReqField → Bool
  | .dbtype => truthyS c.type
  | .host => truthyS c.host
  | .port => truthyN c.port
  | .database => truthyS c.database
  | .user => truthyS c.user
  | .password => truthyS c.password

/-- A required field counts as supplied by the environment when some
environment variable feeding it (in any of the three namespaces) is
truthy; the backend type additionally counts as supplied when it is
inferable from a truthy host or database variable (lines 56-62). -/
def envHasField (e : Env) : ReqField → Bool
  | .dbtype => truthyS (dbTypeOf e) || truthyS e.MYSQL_HOST || truthyS e.MYSQL_DATABASE
      || truthyS (pgHostOf e) || truthyS (pgDatabaseOf e)
  | .host => truthyS e.DB_HOST || truthyS e.POSTGRES_HOST || truthyS e.MYSQL_HOST
  | .port => truthyS e.DB_PORT || truthyS e.POSTGRES_PORT || truthyS e.MYSQL_PORT
  | .database => truthyS e.DB_DATABASE || truthyS e.POSTGRES_DATABASE || truthyS e.MYSQL_DATABASE
  | .user => truthyS e.DB_USER || truthyS e.POSTGRES_USER || truthyS e.MYSQL_USER
  | .password => truthyS e.DB_PASSWORD || truthyS e.POSTGRES_PASSWORD || truthyS e.MYSQL_PASSWORD

/-- Whether `pat` matches at the head of `l`. -/
def leadMatch : List Char → List Char → Bool
  | [], _ => true
  | _ :: _, [] => false
  | a :: as, b :: bs => (a == b) && leadMatch as bs

/-- Whether `pat` occurs contiguously somewhere in `l`. -/
def occursIn (pat : List Char) : List Char → Bool
  | [] => leadMatch pat []
  | b :: bs => leadMatch pat (b :: bs) || occursIn pat bs

/-- Whether `pat` occurs as a substring of `s`. -/
def strContains (s pat : String) : Bool := occursIn pat.data s.data

/-- The environment variable names the incompleteness message names. -/
def enumeratedEnvVars : List String :=
  ["DB_TYPE", "DB_HOST", "DB_PORT", "DB_DATABASE", "DB_USER", "DB_PASSWORD",
   "MYSQL_HOST", "MYSQL_PORT", "MYSQL_DATABASE", "MYSQL_USER", "MYSQL_PASSWORD"]

/-- The environment that sets exactly the variables the message lists
for PostgreSQL. -/
def pgRemediationEnv : Env :=
  { emptyEnv with
      DB_TYPE := some "postgresql", DB_HOST := some "localhost",
      DB_PORT := some "5432", DB_DATABASE := some "mydb",
      DB_USER := some "admin", DB_PASSWORD := some "pw" }

/-- The environment that sets exactly the variables the message lists
for MySQL. -/
def myRemediationEnv : Env :=
  { emptyEnv with
      DB_TYPE := some "mysql", MYSQL_HOST := some "localhost",
      MYSQL_PORT := some "3306", MYSQL_DATABASE := some "mydb",
      MYSQL_USER := some "admin", MYSQL_PASSWORD := some "pw" }

/-- Any value in the list is truthy. -/
def anyTruthy (l : List (Option String)) : Bool := l.any truthyS

/-- Modelled from the words of claim C6 (the spec's §4.1 step 2): the
backend-type determination said to use the generic type variable first,
then the presence of ANY MySQL-specific field, then the presence of a
PostgreSQL-specific or generic host or database field. -/
def claimedTypeAlgorithm (e : Env) : Option String :=
  let generic := if truthyS e.DB_TYPE then e.DB_TYPE else e.DATABASE_TYPE
  if truthyS generic then
    some (if strToLower (generic.getD "") == "mysql" then "mysql" else "postgresql")
  else if anyTruthy [e.MYSQL_HOST, e.MYSQL_PORT, e.MYSQL_DATABASE,
                     e.MYSQL_USER, e.MYSQL_PASSWORD] then
    some "mysql"
  else if anyTruthy [e.DB_HOST, e.POSTGRES_HOST, e.DB_DATABASE, e.POSTGRES_DATABASE] then
    some "postgresql"
  else
    none

/-- The amended type-determination algorithm, in the spec's style: as
claim C6, but only `MYSQL_HOST` or `MYSQL_DATABASE` (not the other
MySQL-specific variables) can trigger the mysql inference. -/
def amendedTypeAlgorithm (e : Env) : Option String :=
  let generic := if truthyS e.DB_TYPE then e.DB_TYPE else e.DATABASE_TYPE
  if truthyS generic then
    some (if strToLower (generic.getD "") == "mysql" then "mysql" else "postgresql")
  else if anyTruthy [e.MYSQL_HOST, e.MYSQL_DATABASE] then
    some "mysql"
  else if anyTruthy [e.DB_HOST, e.POSTGRES_HOST, e.DB_DATABASE, e.POSTGRES_DATABASE] then
    some "postgresql"
  else
    none

/-! Concrete fixtures used by counterexamples and witnesses. -/

/-- An environment whose only variable is `MYSQL_USER`. -/
def envMysqlUserOnly : Env := { emptyEnv with MYSQL_USER := some "u" }

/-- A complete explicit PostgreSQL `connect_database` argument object. -/
def cPgExplicit : PartialConfig :=
  ⟨some "postgresql", some "localhost", some (some 5432), some "mydb",
   some "pg", some "pw", none⟩

/-- A second complete explicit PostgreSQL argument object. -/
def cPgExplicitB : PartialConfig :=
  ⟨some "postgresql", some "dbhost", some (some 5433), some "appdb",
   some "svc", some "secret", none⟩

/-- An explicit PostgreSQL config missing only the password. -/
def cMissingPw : PartialConfig :=
  ⟨some "postgresql", some "h", some (some 5432), some "d", some "u", none, none⟩

/-- An environment whose only variable is `DB_PASSWORD`. -/
def envOnlyPassword : Env := { emptyEnv with DB_PASSWORD := some "p" }

/-- A partial explicit config: host, port, database, user and an
explicit `ssl: false`, but no type and no password. -/
def cPartialForMerge : PartialConfig :=
  ⟨none, some "h2", some (some 9999), some "dd", some "uu", none, some false⟩

/-- A full generic-namespace PostgreSQL environment with SSL on. -/
def envFullPg : Env :=
  { emptyEnv with
      DB_TYPE := some "postgresql", DB_HOST := some "envh",
      DB_PORT := some "5433", DB_DATABASE := some "envd",
      DB_USER := some "envu", DB_PASSWORD := some "envp",
      DB_SSL := some "true" }

/-- The config `envFullPg` resolves to. -/
def cfgEnvPg : Config := ⟨"postgresql", "envh", some 5433, "envd", "envu", "envp", true⟩

/-- A resolved local PostgreSQL config. -/
def cfgPgLocal : Config := ⟨"postgresql", "localhost", some 5432, "mydb", "pg", "pw", false⟩

/-- A Connected-state session on PostgreSQL. -/
def stPg : SessionState := ⟨some (mkPgPool cfgPgLocal), none, some cfgPgLocal⟩

/-- A resolved local MySQL config. -/
def cfgMyLocal : Config := ⟨"mysql", "localhost", some 3306, "shop", "root", "pw", false⟩

/-- A Connected-state session on MySQL. -/
def stMy : SessionState := ⟨none, some (mkMyPool cfgMyLocal), some cfgMyLocal⟩

/-! Helper lemmas. -/

/-- Truthiness of JavaScript `a || b` on strings. -/
theorem truthyS_orJS (a b : Option String) :
    truthyS (orJS a b) = (truthyS a || truthyS b) := by
  unfold orJS
  cases ha : truthyS a <;> simp [ha]

/-- A required field the explicit config lacks makes the code's
completeness test at line 249 fail. -/
theorem explicitIncomplete_of_missing (c : PartialConfig) (f : ReqField)
    (h : explicitHasField c f = false) : explicitIncomplete c = true := by
  cases f <;> simp only [explicitHasField] at h <;> simp [explicitIncomplete, h]

/-- A required field no environment variable supplies makes
`getConfigFromEnv` return `none`. -/
theorem getConfigFromEnv_none_of_missing (e : Env) (f : ReqField)
    (h : envHasField e f = false) : getConfigFromEnv e = none := by
  cases f
  case dbtype =>
    simp only [envHasField, Bool.or_eq_false_iff] at h
    obtain ⟨⟨⟨⟨h1, h2⟩, h3⟩, h4⟩, h5⟩ := h
    simp [getConfigFromEnv, envDeterminedType, h1, h2, h3, h4, h5]
  case host =>
    simp only [envHasField, Bool.or_eq_false_iff] at h
    obtain ⟨⟨h1, h2⟩, h3⟩ := h
    have hpg : truthyS (pgHostOf e) = false := by
      rw [pgHostOf, truthyS_orJS, h1, h2]; rfl
    unfold getConfigFromEnv
    cases hd : envDeterminedType e with
    | none => rfl
    | some t =>
      by_cases ht : (t == "postgresql") = true
      · simp [ht, hpg]
      · simp only [Bool.not_eq_true] at ht
        simp [ht, h3]
  case port =>
    simp only [envHasField, Bool.or_eq_false_iff] at h
    obtain ⟨⟨h1, h2⟩, h3⟩ := h
    have hpg : truthyS (pgPortOf e) = false := by
      rw [pgPortOf, truthyS_orJS, h1, h2]; rfl
    unfold getConfigFromEnv
    cases hd : envDeterminedType e with
    | none => rfl
    | some t =>
      by_cases ht : (t == "postgresql") = true
      · simp [ht, hpg]
      · simp only [Bool.not_eq_true] at ht
        simp [ht, h3]
  case database =>
    simp only [envHasField, Bool.or_eq_false_iff] at h
    obtain ⟨⟨h1, h2⟩, h3⟩ := h
    have hpg : truthyS (pgDatabaseOf e) = false := by
      rw [pgDatabaseOf, truthyS_orJS, h1, h2]; rfl
    unfold getConfigFromEnv
    cases hd : envDeterminedType e with
    | none => rfl
    | some t =>
      by_cases ht : (t == "postgresql") = true
      · simp [ht, hpg]
      · simp only [Bool.not_eq_true] at ht
        simp [ht, h3]
  case user =>
    simp only [envHasField, Bool.or_eq_false_iff] at h
    obtain ⟨⟨h1, h2⟩, h3⟩ := h
    have hpg : truthyS (pgUserOf e) = false := by
      rw [pgUserOf, truthyS_orJS, h1, h2]; rfl
    unfold getConfigFromEnv
    cases hd : envDeterminedType e with
    | none => rfl
    | some t =>
      by_cases ht : (t == "postgresql") = true
      · simp [ht, hpg]
      · simp only [Bool.not_eq_true] at ht
        simp [ht, h3]
  case password =>
    simp only [envHasField, Bool.or_eq_false_iff] at h
    obtain ⟨⟨h1, h2⟩, h3⟩ := h
    have hpg : truthyS (pgPasswordOf e) = false := by
      rw [pgPasswordOf, truthyS_orJS, h1, h2]; rfl
    unfold getConfigFromEnv
    cases hd : envDeterminedType e with
    | none => rfl
    | some t =>
      by_cases ht : (t == "postgresql") = true
      · simp [ht, hpg]
      · simp only [Bool.not_eq_true] at ht
        simp [ht, h3]

/-! Claim theorems. -/

/-- C3: when some required field (type, host, port, database, user,
password) is supplied by neither the explicit config nor any
environment variable, `connect_database` fails with the
configuration-incompleteness error before any adapter call is made
(trace empty, session untouched), and the failure message names
environment variables that would satisfy the configuration for each
backend: every listed name occurs in the message, and setting exactly
the listed PostgreSQL (resp. MySQL) variables makes environment
resolution succeed. -/
theorem connect_missing_field_both_sources (env : Env) (c : PartialConfig)
    (st : SessionState) (probe : Except String Unit) (f : ReqField)
    (h1 : explicitHasField c f = false) (h2 : envHasField env f = false) :
    connectDatabase env c st probe =
      { state := st, calls := [], result := Except.error cfgIncompleteMsg } ∧
    enumeratedEnvVars.all (fun v => strContains cfgIncompleteMsg v) = true ∧
    (getConfigFromEnv pgRemediationEnv).isSome = true ∧
    (getConfigFromEnv myRemediationEnv).isSome = true := by
  refine ⟨?_, by decide, by decide, by decide⟩
  have he : getConfigFromEnv env = none := getConfigFromEnv_none_of_missing env f h2
  have hi : explicitIncomplete c = true := explicitIncomplete_of_missing c f h1
  simp [connectDatabase, resolveConfig, hi, he]

theorem connect_missing_field_both_sources_witness :
    connectDatabase emptyEnv emptyPartial initialState (Except.ok ()) =
      { state := initialState, calls := [], result := Except.error cfgIncompleteMsg } ∧
    enumeratedEnvVars.all (fun v => strContains cfgIncompleteMsg v) = true ∧
    (getConfigFromEnv pgRemediationEnv).isSome = true ∧
    (getConfigFromEnv myRemediationEnv).isSome = true :=
  connect_missing_field_both_sources emptyEnv emptyPartial initialState
    (Except.ok ()) ReqField.host (by decide) (by decide)

/-- C6 counterexample: in the environment that sets only `MYSQL_USER`,
a MySQL-specific field is present, so the claimed algorithm infers
`mysql`; the code's type determination yields nothing and resolution
returns `none` (Incomplete). -/
theorem env_type_inference_counterexample :
    claimedTypeAlgorithm envMysqlUserOnly = some "mysql" ∧
    envDeterminedType envMysqlUserOnly = none ∧
    getConfigFromEnv envMysqlUserOnly = none := by decide

/-- C6 amended: the code's backend-type determination uses the generic
type variable first (case-insensitively, non-mysql values meaning
postgresql); otherwise it infers mysql exactly when `MYSQL_HOST` or
`MYSQL_DATABASE` is present (other MySQL-specific variables do not
count); otherwise postgresql when a generic/PostgreSQL host or
database variable is present; otherwise the type is undetermined and
environment resolution yields nothing. -/
theorem env_type_inference_amended (e : Env) :
    envDeterminedType e = amendedTypeAlgorithm e ∧
    (envDeterminedType e = none → getConfigFromEnv e = none) := by
  constructor
  · have hl : ∀ a b : Option String,
        truthyS (if truthyS a = true then a else b) = (truthyS a || truthyS b) := by
      intro a b; cases ha : truthyS a <;> simp [ha]
    unfold envDeterminedType amendedTypeAlgorithm anyTruthy
    simp only [dbTypeOf, pgHostOf, pgDatabaseOf, orJS, List.any_cons, List.any_nil,
      Bool.or_false, hl, Bool.or_assoc]
  · intro h
    simp [getConfigFromEnv, h]

theorem env_type_inference_amended_witness :
    envDeterminedType emptyEnv = amendedTypeAlgorithm emptyEnv ∧
    getConfigFromEnv emptyEnv = none :=
  ⟨(env_type_inference_amended emptyEnv).1,
   (env_type_inference_amended emptyEnv).2 (by decide)⟩

/-- C7: in the Disconnected state (`currentConfig` null, as in the
initial state), `execute_query`, `list_tables` and `describe_table`
all fail with the not-connected precondition error, issue no driver
call, and leave the state unchanged. -/
theorem ops_require_connection (st : SessionState) (h : st.currentConfig = none)
    (q tn : String) (params : Option (List JSVal))
    (pgO : PgDriverOutcome) (myO : MyDriverOutcome) :
    executeQuery st q params pgO myO =
      { state := st, calls := [], result := Except.error notConnectedMsg } ∧
    listTables st pgO myO =
      { state := st, calls := [], result := Except.error notConnectedMsg } ∧
    describeTable st tn pgO myO =
      { state := st, calls := [], result := Except.error notConnectedMsg } := by
  unfold executeQuery listTables describeTable
  rw [h]
  exact ⟨rfl, rfl, rfl⟩

theorem ops_require_connection_witness :
    executeQuery initialState "SELECT 1" none (PgDriverOutcome.err "x") (MyDriverOutcome.err "x") =
      { state := initialState, calls := [], result := Except.error notConnectedMsg } ∧
    listTables initialState (PgDriverOutcome.err "x") (MyDriverOutcome.err "x") =
      { state := initialState, calls := [], result := Except.error notConnectedMsg } ∧
    describeTable initialState "users" (PgDriverOutcome.err "x") (MyDriverOutcome.err "x") =
      { state := initialState, calls := [], result := Except.error notConnectedMsg } :=
  ops_require_connection initialState rfl "SELECT 1" "users" none
    (PgDriverOutcome.err "x") (MyDriverOutcome.err "x")

/-- C8: `disconnect_database` always succeeds with the same
confirmation, always leaves the empty (Disconnected) state, closes a
present adapter, and a second (or any later) call is a no-op that
still succeeds — so consecutive calls never error. -/
theorem disconnect_idempotent (st : SessionState) :
    (disconnectDatabase st).state = initialState ∧
    (disconnectDatabase st).result = Except.ok (ToolOutput.message "Disconnected from database") ∧
    disconnectDatabase (disconnectDatabase st).state =
      { state := initialState, calls := [],
        result := Except.ok (ToolOutput.message "Disconnected from database") } ∧
    (st.postgresPool = none ∧ st.mysqlConnection = none →
      (disconnectDatabase st).calls = []) ∧
    (∀ p, st.postgresPool = some p → AdapterCall.pgEnd p ∈ (disconnectDatabase st).calls) ∧
    (∀ p, st.mysqlConnection = some p → AdapterCall.myEnd p ∈ (disconnectDatabase st).calls) := by
  refine ⟨rfl, rfl, rfl, ?_, ?_, ?_⟩
  · rintro ⟨h1, h2⟩
    simp [disconnectDatabase, h1, h2]
  · intro p hp
    simp [disconnectDatabase, hp]
  · intro p hp
    simp [disconnectDatabase, hp]

theorem disconnect_idempotent_witness :
    (disconnectDatabase stPg).state = initialState ∧
    (disconnectDatabase stPg).result = Except.ok (ToolOutput.message "Disconnected from database") ∧
    disconnectDatabase (disconnectDatabase stPg).state =
      { state := initialState, calls := [],
        result := Except.ok (ToolOutput.message "Disconnected from database") } ∧
    AdapterCall.pgEnd (mkPgPool cfgPgLocal) ∈ (disconnectDatabase stPg).calls :=
  ⟨(disconnect_idempotent stPg).1, (disconnect_idempotent stPg).2.1,
   (disconnect_idempotent stPg).2.2.1,
   (disconnect_idempotent stPg).2.2.2.2.1 (mkPgPool cfgPgLocal) rfl⟩

/-- C9: when configuration resolution fails, `connect_database` throws
before touching the session: the state (in particular an existing
Connected session's config and adapter) is unchanged and no adapter
call — no close of the prior adapter — happens. -/
theorem connect_resolution_failure_preserves_session (env : Env) (c : PartialConfig)
    (st : SessionState) (probe : Except String Unit) (m : String)
    (h : resolveConfig env c = Except.error m) :
    connectDatabase env c st probe =
      { state := st, calls := [], result := Except.error m } := by
  unfold connectDatabase
  rw [h]

theorem connect_resolution_failure_preserves_session_witness :
    connectDatabase emptyEnv emptyPartial stPg (Except.ok ()) =
      { state := stPg, calls := [], result := Except.error cfgIncompleteMsg } ∧
    (executeQuery stPg "SELECT 1" none
        (PgDriverOutcome.ok ⟨[], 0, []⟩) (MyDriverOutcome.err "x")).calls =
      [AdapterCall.pgQuery (mkPgPool cfgPgLocal) "SELECT 1" none] :=
  ⟨connect_resolution_failure_preserves_session emptyEnv emptyPartial stPg
      (Except.ok ()) cfgIncompleteMsg rfl,
   by decide⟩

/-- C10: in the merge of src/index.js lines 261-269, every field other
than `ssl` falls back to the environment value whenever the explicit
value is falsy in JavaScript (absent, empty string, 0 or NaN for the
port) — such a value also fails the line-249 completeness test, i.e.
is treated as not supplied — while `ssl` is merged by an
undefined-check, so an explicit `ssl: false` is preserved and only an
absent `ssl` falls back to the environment value. -/
theorem merge_truthiness (c : PartialConfig) (ec : Config) :
    (truthyS c.type = false → (mergeConfig c ec).type = ec.type ∧ explicitIncomplete c = true) ∧
    (truthyS c.host = false → (mergeConfig c ec).host = ec.host ∧ explicitIncomplete c = true) ∧
    (truthyN c.port = false → (mergeConfig c ec).port = ec.port ∧ explicitIncomplete c = true) ∧
    (truthyS c.database = false →
      (mergeConfig c ec).database = ec.database ∧ explicitIncomplete c = true) ∧
    (truthyS c.user = false → (mergeConfig c ec).user = ec.user ∧ explicitIncomplete c = true) ∧
    (truthyS c.password = false →
      (mergeConfig c ec).password = ec.password ∧ explicitIncomplete c = true) ∧
    (∀ b, c.ssl = some b → (mergeConfig c ec).ssl = b) ∧
    (c.ssl = none → (mergeConfig c ec).ssl = ec.ssl) := by
  refine ⟨?_, ?_, ?_, ?_, ?_, ?_, ?_, ?_⟩
  · intro h; exact ⟨by simp [mergeConfig, h], by simp [explicitIncomplete, h]⟩
  · intro h; exact ⟨by simp [mergeConfig, h], by simp [explicitIncomplete, h]⟩
  · intro h; exact ⟨by simp [mergeConfig, h], by simp [explicitIncomplete, h]⟩
  · intro h; exact ⟨by simp [mergeConfig, h], by simp [explicitIncomplete, h]⟩
  · intro h; exact ⟨by simp [mergeConfig, h], by simp [explicitIncomplete, h]⟩
  · intro h; exact ⟨by simp [mergeConfig, h], by simp [explicitIncomplete, h]⟩
  · intro b hb; simp [mergeConfig, hb]
  · intro hb; simp [mergeConfig, hb]

theorem merge_truthiness_witness :
    (mergeConfig ⟨some "", some "", some (some 0), some "", some "", some "", some false⟩ cfgEnvPg).host
      = cfgEnvPg.host ∧
    (mergeConfig ⟨some "", some "", some (some 0), some "", some "", some "", some false⟩ cfgEnvPg).port
      = cfgEnvPg.port ∧
    (mergeConfig ⟨some "", some "", some (some 0), some "", some "", some "", some false⟩ cfgEnvPg).ssl
      = false ∧
    cfgEnvPg.ssl = true :=
  ⟨((merge_truthiness ⟨some "", some "", some (some 0), some "", some "", some "", some false⟩
      cfgEnvPg).2.1 (by decide)).1,
   ((merge_truthiness ⟨some "", some "", some (some 0), some "", some "", some "", some false⟩
      cfgEnvPg).2.2.1 (by decide)).1,
   (merge_truthiness ⟨some "", some "", some (some 0), some "", some "", some "", some false⟩
      cfgEnvPg).2.2.2.2.2.2.1 false rfl,
   by decide⟩

/-- C1 counterexample: a complete explicit PostgreSQL config resolves,
the connection probe fails, and yet the session is NOT Disconnected:
the stored config and the new pool remain set, and a subsequent
`execute_query` issues a driver call on that pool instead of failing
with the not-connected precondition error. -/
theorem connect_probe_failure_counterexample :
    (connectDatabase emptyEnv cPgExplicit initialState
        (Except.error "connection refused")).state =
      ⟨some (mkPgPool (explicitToConfig cPgExplicit)), none,
       some (explicitToConfig cPgExplicit)⟩ ∧
    (connectDatabase emptyEnv cPgExplicit initialState
        (Except.error "connection refused")).result = Except.error "connection refused" ∧
    (executeQuery (connectDatabase emptyEnv cPgExplicit initialState
          (Except.error "connection refused")).state
        "SELECT 1" none (PgDriverOutcome.err "ECONNREFUSED") (MyDriverOutcome.err "x")) =
      { state := ⟨some (mkPgPool (explicitToConfig cPgExplicit)), none,
                  some (explicitToConfig cPgExplicit)⟩,
        calls := [AdapterCall.pgQuery (mkPgPool (explicitToConfig cPgExplicit)) "SELECT 1" none],
        result := Except.error "ECONNREFUSED" } ∧
    ("ECONNREFUSED" = notConnectedMsg → False) := by
  refine ⟨by decide, by decide, by decide, ?_⟩
  intro h
  exact absurd h (by decide)

/-- C1 amended: when configuration resolution succeeds but the backend
adapter's connect/probe fails, the session does not end Disconnected:
the prior adapter has already been closed and discarded, but the NEW
config (and pool) stay stored, so a subsequent `execute_query` does
not fail the not-connected precondition — it issues a driver call
against the partially-established connection. -/
theorem connect_probe_failure_keeps_new_config (env : Env) (c : PartialConfig)
    (st : SessionState) (m : String) (f : Config)
    (hres : resolveConfig env c = Except.ok f)
    (ht : f.type = "postgresql" ∨ f.type = "mysql") :
    (connectDatabase env c st (Except.error m)).result = Except.error m ∧
    (connectDatabase env c st (Except.error m)).state.currentConfig = some f ∧
    ∀ q params pgO myO,
      (executeQuery (connectDatabase env c st (Except.error m)).state q params pgO myO).calls
        ≠ [] := by
  rcases ht with ht | ht
  · have hstate : (connectDatabase env c st (Except.error m)).state =
        ⟨some (mkPgPool f), none, some f⟩ := by
      unfold connectDatabase
      rw [hres]
      simp [disconnectDatabase, initialState, ht]
    refine ⟨?_, ?_, ?_⟩
    · unfold connectDatabase
      rw [hres]
      simp [ht]
    · rw [hstate]
    · intro q params pgO myO
      rw [hstate]
      cases pgO <;> simp [executeQuery, ht]
  · have hstate : (connectDatabase env c st (Except.error m)).state =
        ⟨none, some (mkMyPool f), some f⟩ := by
      unfold connectDatabase
      rw [hres]
      simp [disconnectDatabase, initialState, ht]
    refine ⟨?_, ?_, ?_⟩
    · unfold connectDatabase
      rw [hres]
      simp [ht]
    · rw [hstate]
    · intro q params pgO myO
      rw [hstate]
      cases myO <;> simp [executeQuery, ht]

theorem connect_probe_failure_keeps_new_config_witness :
    (connectDatabase emptyEnv cPgExplicitB initialState (Except.error "boom")).result
      = Except.error "boom" ∧
    (connectDatabase emptyEnv cPgExplicitB initialState (Except.error "boom")).state.currentConfig
      = some (explicitToConfig cPgExplicitB) ∧
    (executeQuery (connectDatabase emptyEnv cPgExplicitB initialState
          (Except.error "boom")).state
        "SELECT 2" none (PgDriverOutcome.err "down") (MyDriverOutcome.err "down")).calls
      ≠ [] := by
  have h := connect_probe_failure_keeps_new_config emptyEnv cPgExplicitB initialState
    "boom" (explicitToConfig cPgExplicitB) rfl (Or.inl rfl)
  exact ⟨h.1, h.2.1, h.2.2 "SELECT 2" none (PgDriverOutcome.err "down") (MyDriverOutcome.err "down")⟩

/-- C2 counterexample: the explicit config lacks only the password and
the environment supplies exactly that missing field (`DB_PASSWORD`
alone); yet `connect_database` fails with the incompleteness error —
the environment must resolve to a complete config on its own before
any merging happens. -/
theorem connect_merge_counterexample :
    cMissingPw.password = none ∧
    explicitHasField cMissingPw ReqField.dbtype = true ∧
    explicitHasField cMissingPw ReqField.host = true ∧
    explicitHasField cMissingPw ReqField.port = true ∧
    explicitHasField cMissingPw ReqField.database = true ∧
    explicitHasField cMissingPw ReqField.user = true ∧
    truthyS envOnlyPassword.DB_PASSWORD = true ∧
    connectDatabase envOnlyPassword cMissingPw initialState (Except.ok ()) =
      { state := initialState, calls := [], result := Except.error cfgIncompleteMsg } := by
  decide

/-- C2 amended: when the explicit config is partial AND the
environment on its own resolves to a complete config `ec`,
`connect_database` proceeds with the field-by-field merge (each
truthily supplied explicit field overrides the environment value;
`ssl` is taken from the explicit config exactly when provided, so an
explicit `false` wins over an environment-derived `true`), stores the
merged config, and succeeds when the probe succeeds. When the
environment does not resolve on its own, connect fails with the
incompleteness error even if the environment supplies exactly the
missing fields (see the counterexample). -/
theorem connect_merge_with_resolvable_env (env : Env) (c : PartialConfig) (ec : Config)
    (st : SessionState)
    (hinc : explicitIncomplete c = true)
    (henv : getConfigFromEnv env = some ec)
    (ht : (mergeConfig c ec).type = "postgresql" ∨ (mergeConfig c ec).type = "mysql") :
    (connectDatabase env c st (Except.ok ())).state.currentConfig
      = some (mergeConfig c ec) ∧
    (∃ msg, (connectDatabase env c st (Except.ok ())).result
      = Except.ok (ToolOutput.message msg)) ∧
    (∀ s, c.type = some s → s ≠ "" → (mergeConfig c ec).type = s) ∧
    (∀ s, c.host = some s → s ≠ "" → (mergeConfig c ec).host = s) ∧
    (∀ n : Int, c.port = some (some n) → n ≠ 0 → (mergeConfig c ec).port = some n) ∧
    (∀ s, c.database = some s → s ≠ "" → (mergeConfig c ec).database = s) ∧
    (∀ s, c.user = some s → s ≠ "" → (mergeConfig c ec).user = s) ∧
    (∀ s, c.password = some s → s ≠ "" → (mergeConfig c ec).password = s) ∧
    (∀ b, c.ssl = some b → (mergeConfig c ec).ssl = b) ∧
    (c.ssl = none → (mergeConfig c ec).ssl = ec.ssl) := by
  have hres : resolveConfig env c = Except.ok (mergeConfig c ec) := by
    simp [resolveConfig, hinc, henv]
  have hmain : (connectDatabase env c st (Except.ok ())).state.currentConfig
        = some (mergeConfig c ec) ∧
      ∃ msg, (connectDatabase env c st (Except.ok ())).result
        = Except.ok (ToolOutput.message msg) := by
    rcases ht with ht | ht
    · constructor
      · unfold connectDatabase
        rw [hres]
        simp [disconnectDatabase, initialState, ht]
      · have hr : (connectDatabase env c st (Except.ok ())).result
            = Except.ok (ToolOutput.message
                ("Successfully connected to PostgreSQL database: "
                  ++ (mergeConfig c ec).database ++ "@" ++ (mergeConfig c ec).host
                  ++ ":" ++ jsNumToString (mergeConfig c ec).port)) := by
          unfold connectDatabase
          rw [hres]
          simp [ht]
        exact ⟨_, hr⟩
    · constructor
      · unfold connectDatabase
        rw [hres]
        simp [disconnectDatabase, initialState, ht]
      · have hr : (connectDatabase env c st (Except.ok ())).result
            = Except.ok (ToolOutput.message
                ("Successfully connected to MySQL database: "
                  ++ (mergeConfig c ec).database ++ "@" ++ (mergeConfig c ec).host
                  ++ ":" ++ jsNumToString (mergeConfig c ec).port)) := by
          unfold connectDatabase
          rw [hres]
          simp [ht]
        exact ⟨_, hr⟩
  refine ⟨hmain.1, hmain.2, ?_, ?_, ?_, ?_, ?_, ?_, ?_, ?_⟩
  · intro s hs hne
    simp [mergeConfig, hs, truthyS, hne]
  · intro s hs hne
    simp [mergeConfig, hs, truthyS, hne]
  · intro n hn hne
    simp [mergeConfig, hn, truthyN, hne]
  · intro s hs hne
    simp [mergeConfig, hs, truthyS, hne]
  · intro s hs hne
    simp [mergeConfig, hs, truthyS, hne]
  · intro s hs hne
    simp [mergeConfig, hs, truthyS, hne]
  · intro b hb
    simp [mergeConfig, hb]
  · intro hb
    simp [mergeConfig, hb]

theorem connect_merge_with_resolvable_env_witness :
    explicitIncomplete cPartialForMerge = true ∧
    getConfigFromEnv envFullPg = some cfgEnvPg ∧
    (connectDatabase envFullPg cPartialForMerge initialState (Except.ok ())).state.currentConfig
      = some (mergeConfig cPartialForMerge cfgEnvPg) ∧
    (mergeConfig cPartialForMerge cfgEnvPg).host = "h2" ∧
    (mergeConfig cPartialForMerge cfgEnvPg).port = some 9999 ∧
    (mergeConfig cPartialForMerge cfgEnvPg).ssl = false ∧
    cfgEnvPg.ssl = true := by
  have h := connect_merge_with_resolvable_env envFullPg cPartialForMerge cfgEnvPg
    initialState (by decide) (by decide) (Or.inl (by decide))
  exact ⟨by decide, by decide, h.1,
    h.2.2.2.1 "h2" rfl (by decide),
    h.2.2.2.2.1 9999 rfl (by decide),
    h.2.2.2.2.2.2.2.2.1 false rfl,
    by decide⟩

/-- C4 counterexample: for a MySQL write statement the driver reports
3 affected rows (a ResultSetHeader, not a row array), but the
normalized result's `rowCount` is 0, not the driver-reported
affected-row count. -/
theorem mysql_write_rowcount_counterexample :
    (executeQuery stMy "UPDATE t SET a = 1 WHERE b = 2" (some [])
        (PgDriverOutcome.err "unused")
        (MyDriverOutcome.ok (MyRows.header 3) none)).result =
      Except.ok (ToolOutput.myResult ⟨MyRows.header 3, 0, []⟩) ∧
    ((0 : Int) = 3 → False) := by
  refine ⟨by decide, ?_⟩
  intro h
  exact absurd h (by decide)

/-- C4 amended: `rowCount` equals the driver-reported count on
PostgreSQL for both reads and writes; on MySQL it equals the number of
returned rows when the driver result is a row array (reads), but it is
0 whenever the driver returns a write ResultSetHeader — regardless of
the affected-row count the driver reports. -/
theorem rowcount_normalization (stP stM : SessionState) (p : PgPool) (mp : MyPool)
    (cfgP cfgM : Config) (q : String) (params : Option (List JSVal))
    (r : PgDriverResult) (rs : List Row) (fs : Option (List (String × Nat))) (n : Nat)
    (pgO : PgDriverOutcome) (myO : MyDriverOutcome)
    (hP1 : stP.currentConfig = some cfgP) (hP2 : cfgP.type = "postgresql")
    (hP3 : stP.postgresPool = some p)
    (hM1 : stM.currentConfig = some cfgM) (hM2 : cfgM.type = "mysql")
    (hM3 : stM.mysqlConnection = some mp) :
    (executeQuery stP q params (PgDriverOutcome.ok r) myO).result
      = Except.ok (ToolOutput.pgResult (normalizePg r)) ∧
    (normalizePg r).rowCount = r.rowCount ∧
    (executeQuery stM q params pgO (MyDriverOutcome.ok (MyRows.rowList rs) fs)).result
      = Except.ok (ToolOutput.myResult (normalizeMy (MyRows.rowList rs) fs)) ∧
    (normalizeMy (MyRows.rowList rs) fs).rowCount = (rs.length : Int) ∧
    (executeQuery stM q params pgO (MyDriverOutcome.ok (MyRows.header n) fs)).result
      = Except.ok (ToolOutput.myResult (normalizeMy (MyRows.header n) fs)) ∧
    (normalizeMy (MyRows.header n) fs).rowCount = 0 := by
  refine ⟨?_, rfl, ?_, rfl, ?_, rfl⟩
  · simp [executeQuery, hP1, hP2, hP3]
  · simp [executeQuery, hM1, hM2, hM3]
  · simp [executeQuery, hM1, hM2, hM3]

theorem rowcount_normalization_witness :
    (executeQuery stPg "SELECT 1" none
        (PgDriverOutcome.ok ⟨[[("a", JSVal.num (some 1))]], 7, [("a", 23)]⟩)
        (MyDriverOutcome.err "x")).result
      = Except.ok (ToolOutput.pgResult
          ⟨[[("a", JSVal.num (some 1))]], 7, [⟨"a", 23⟩]⟩) ∧
    (executeQuery stMy "SELECT 1" none (PgDriverOutcome.err "x")
        (MyDriverOutcome.ok (MyRows.rowList [[("a", JSVal.num (some 1))]])
          (some [("a", 3)]))).result
      = Except.ok (ToolOutput.myResult
          ⟨MyRows.rowList [[("a", JSVal.num (some 1))]], 1, [⟨"a", 3⟩]⟩) ∧
    (executeQuery stMy "DELETE FROM t" none (PgDriverOutcome.err "x")
        (MyDriverOutcome.ok (MyRows.header 5) none)).result
      = Except.ok (ToolOutput.myResult ⟨MyRows.header 5, 0, []⟩) := by
  have h := rowcount_normalization stPg stMy (mkPgPool cfgPgLocal) (mkMyPool cfgMyLocal)
    cfgPgLocal cfgMyLocal "SELECT 1" none
    ⟨[[("a", JSVal.num (some 1))]], 7, [("a", 23)]⟩
    [[("a", JSVal.num (some 1))]] (some [("a", 3)]) 5
    (PgDriverOutcome.err "x") (MyDriverOutcome.err "x")
    rfl rfl rfl rfl rfl rfl
  refine ⟨h.1, h.2.2.1, ?_⟩
  have h2 := rowcount_normalization stPg stMy (mkPgPool cfgPgLocal) (mkMyPool cfgMyLocal)
    cfgPgLocal cfgMyLocal "DELETE FROM t" none
    ⟨[], 0, []⟩ [] none 5
    (PgDriverOutcome.err "x") (MyDriverOutcome.err "x")
    rfl rfl rfl rfl rfl rfl
  exact h2.2.2.2.2.1

/-- C5 counterexample: on PostgreSQL, `describe_table` does NOT
interpolate the table name into the statement text — it passes it as
the bound parameter list `[$1 value]`, and the fixed statement text
does not contain the supplied name at all. -/
theorem pg_describe_binds_name_counterexample :
    (describeTable stPg "users" (PgDriverOutcome.ok ⟨[], 0, []⟩)
        (MyDriverOutcome.err "unused")).calls =
      [AdapterCall.pgQuery (mkPgPool cfgPgLocal) pgDescribeQuery
        (some [JSVal.str "users"])] ∧
    strContains pgDescribeQuery "users" = false := by
  decide

/-- C5 amended: only the MySQL paths interpolate caller input into
statement text: MySQL `describe_table` issues `DESCRIBE <name>` with
no parameter list, and MySQL `list_tables` interpolates the
connect-time database name into `SHOW TABLES FROM <db>`. PostgreSQL
`describe_table` instead issues a fixed statement with the table name
as the single bound parameter. -/
theorem statement_interpolation_sites (stP stM : SessionState) (p : PgPool) (mp : MyPool)
    (cfgP cfgM : Config) (t : String)
    (pgO : PgDriverOutcome) (myO : MyDriverOutcome)
    (hP1 : stP.currentConfig = some cfgP) (hP2 : cfgP.type = "postgresql")
    (hP3 : stP.postgresPool = some p)
    (hM1 : stM.currentConfig = some cfgM) (hM2 : cfgM.type = "mysql")
    (hM3 : stM.mysqlConnection = some mp) :
    (describeTable stP t pgO myO).calls =
      [AdapterCall.pgQuery p pgDescribeQuery (some [JSVal.str t])] ∧
    (describeTable stM t pgO myO).calls =
      [AdapterCall.myQuery mp ("DESCRIBE " ++ t) none] ∧
    (listTables stM pgO myO).calls =
      [AdapterCall.myQuery mp ("SHOW TABLES FROM " ++ cfgM.database) none] := by
  refine ⟨?_, ?_, ?_⟩
  · simp [describeTable, hP1, hP2, hP3]
  · simp [describeTable, hM1, hM2, hM3]
  · simp [listTables, hM1, hM2, hM3]

theorem statement_interpolation_sites_witness :
    (describeTable stPg "orders" (PgDriverOutcome.ok ⟨[], 0, []⟩)
        (MyDriverOutcome.err "x")).calls =
      [AdapterCall.pgQuery (mkPgPool cfgPgLocal) pgDescribeQuery
        (some [JSVal.str "orders"])] ∧
    (describeTable stMy "orders" (PgDriverOutcome.ok ⟨[], 0, []⟩)
        (MyDriverOutcome.err "x")).calls =
      [AdapterCall.myQuery (mkMyPool cfgMyLocal) "DESCRIBE orders" none] ∧
    (listTables stMy (PgDriverOutcome.ok ⟨[], 0, []⟩)
        (MyDriverOutcome.err "x")).calls =
      [AdapterCall.myQuery (mkMyPool cfgMyLocal) "SHOW TABLES FROM shop" none] := by
  have h := statement_interpolation_sites stPg stMy (mkPgPool cfgPgLocal)
    (mkMyPool cfgMyLocal) cfgPgLocal cfgMyLocal "orders"
    (PgDriverOutcome.ok ⟨[], 0, []⟩) (MyDriverOutcome.err "x")
    rfl rfl rfl rfl rfl rfl
  exact ⟨h.1, h.2.1, h.2.2⟩

end SQLMCP
